import Mathlib

/-
Verification of the cache-key / classification layer of the document-ocr
front-end.  Definitions are shallow embeddings of the TypeScript sources:
  src/lib/query-client.ts   (ocrKeys, generateBase64Hash)
  src/lib/file-utils.ts     (generateFileHash, validators, detectInputType,
                             hasMultipleUrls, fileToBase64, getMimeType)
  src/hooks/use-ocr.ts      (getCacheKey, the cache-first mutation)
  validation-schemas.ts     (pdfFileSchema, imageFileSchema, base64 and
                             data-URL shapes, apiKeySchema)
Strings are treated at the code-point level; the inputs of interest are
ASCII, where JavaScript UTF-16 `.length`, `slice`, `toLowerCase` and the
Lean models below agree.
-/

namespace DocOCR

/-! ### Character and string helpers (ASCII-level JavaScript semantics) -/

/-- ASCII lower-casing, as applied by `toLowerCase` on the ASCII range. -/
def lowerChar (c : Char) : Char :=
  if 65 ≤ c.toNat ∧ c.toNat ≤ 90 then Char.ofNat (c.toNat + 32) else c

def lowerStr (s : String) : String := String.mk (s.toList.map lowerChar)

/-- The JavaScript whitespace characters relevant to `trim` and `\s`
(ASCII portion). -/
def isJsSpace (c : Char) : Bool :=
  c == ' ' || c == '\t' || c == '\n' || c == '\r' || c == '\x0b' || c == '\x0c'

/-- Model of `String.prototype.trim`. -/
def jsTrim (s : String) : String :=
  String.mk (((s.toList.dropWhile isJsSpace).reverse.dropWhile isJsSpace).reverse)

/-- `charsLead pat cs` holds when `pat` occurs at the head of `cs`. -/
def charsLead : List Char → List Char → Bool
  | [], _ => true
  | _ :: _, [] => false
  | a :: as, b :: bs => a == b && charsLead as bs

/-- Model of `String.prototype.startsWith`. -/
def strStartsWith (s pat : String) : Bool := charsLead pat.toList s.toList

/-- Model of `String.prototype.endsWith`. -/
def strEndsWith (s pat : String) : Bool := charsLead pat.toList.reverse s.toList.reverse

def charsInside : List Char → List Char → Bool
  | sub, [] => sub.isEmpty
  | sub, c :: tail => charsLead sub (c :: tail) || charsInside sub tail

/-- Model of `String.prototype.includes`. -/
def strContains (s sub : String) : Bool := charsInside sub.toList s.toList

/-! ### 32-bit integer arithmetic (JavaScript `|0` / `<<` semantics) -/

/-- `ToInt32`: wrap an integer into the signed 32-bit range. -/
def toInt32 (x : Int) : Int := (x + 2147483648) % 4294967296 - 2147483648

/-- One step of the rolling hash in `generateFileHash`
(`hash = ((hash << 5) - hash) + byte; hash = hash & hash`).  The running
value is always an `& hash`-normalised 32-bit integer, so `hash << 5` is
`toInt32 (hash * 32)`. -/
def jsHashStep (hash : Int) (b : Nat) : Int :=
  toInt32 (toInt32 (hash * 32) - hash + (b : Int))

/-- The same step written as the specification does: `hash*31 + byte`
wrapped to the signed 32-bit range. -/
def specHashStep (hash : Int) (b : Nat) : Int := toInt32 (hash * 31 + (b : Int))

/-- The rolling hash of `generateFileHash` over a byte list. -/
def jsHash (bytes : List Nat) : Int := bytes.foldl jsHashStep 0

/-! ### Base-36 rendering (`Number.prototype.toString(36)` for naturals) -/

def base36Digit (d : Nat) : Char :=
  if d < 10 then Char.ofNat (48 + d) else Char.ofNat (87 + d)

def toBase36Go : Nat → Nat → List Char → List Char
  | 0, _, acc => acc
  | fuel + 1, n, acc =>
      if n = 0 then acc else toBase36Go fuel (n / 36) (base36Digit (n % 36) :: acc)

def toBase36 (n : Nat) : String :=
  if n = 0 then "0" else String.mk (toBase36Go (n + 1) n [])

/-! ### `generateBase64Hash` (src/lib/query-client.ts) -/

/-- `generateBase64Hash`: first and last 20 characters plus the length,
used verbatim when the length is under 40. -/
def generateBase64Hash (base64 : String) : String :=
  let length := base64.length
  if length < 40 then base64
  else
    String.mk (base64.toList.take 20) ++ "-" ++ toString length ++ "-" ++
      String.mk (base64.toList.drop (length - 20))

/-! ### File model and validators (validation-schemas.ts, file-utils.ts) -/

/-- A browser `File` as the code observes it: name, bytes, declared MIME
type and modification timestamp. -/
structure JSFile where
  name : String
  content : List Nat
  type : String
  lastModified : Int
  deriving DecidableEq

/-- `File.size` is the byte length of the content. -/
def JSFile.size (f : JSFile) : Nat := f.content.length

def VALID_IMAGE_TYPES : List String :=
  ["image/png", "image/jpeg", "image/jpg", "image/avif", "image/webp", "image/gif"]

def VALID_IMAGE_EXTENSIONS : List String :=
  [".png", ".jpg", ".jpeg", ".avif", ".webp", ".gif"]

def MAX_FILE_SIZE : Nat := 10485760

/-- `pdfFileSchema.safeParse(file).success`: nonempty, at most 10 MB, and
PDF by MIME type or (lower-cased) name extension. -/
def isValidPdfFile (f : JSFile) : Bool :=
  decide (0 < f.size) && decide (f.size ≤ MAX_FILE_SIZE) &&
    (f.type == "application/pdf" || strEndsWith (lowerStr f.name) ".pdf")

/-- `imageFileSchema.safeParse(file).success`. -/
def isValidImageFile (f : JSFile) : Bool :=
  decide (0 < f.size) && decide (f.size ≤ MAX_FILE_SIZE) &&
    (VALID_IMAGE_TYPES.contains f.type ||
      VALID_IMAGE_EXTENSIONS.any (fun ext => strEndsWith (lowerStr f.name) ext))

/-- The byte sample read by `generateFileHash`:
`file.slice(0, Math.min(8192, file.size))`. -/
def fileSample (f : JSFile) : List Nat := f.content.take (min 8192 f.size)

/-- `generateFileHash`: `${file.name}-${file.size}-${Math.abs(hash).toString(36)}`. -/
def generateFileHash (f : JSFile) : String :=
  f.name ++ "-" ++ toString f.size ++ "-" ++ toBase36 (jsHash (fileSample f)).natAbs

/-- `getMimeType`: `file.type || 'application/octet-stream'`. -/
def getMimeType (f : JSFile) : String :=
  if f.type == "" then "application/octet-stream" else f.type

/-! ### Base64 encoding (`FileReader.readAsDataURL` payload) -/

def b64AlphabetChar (n : Nat) : Char :=
  if n < 26 then Char.ofNat (65 + n)
  else if n < 52 then Char.ofNat (97 + (n - 26))
  else if n < 62 then Char.ofNat (48 + (n - 52))
  else if n = 62 then '+' else '/'

def base64EncodeList : List Nat → List Char
  | [] => []
  | [b1] =>
      let x := (b1 % 256) * 65536
      [b64AlphabetChar (x / 262144 % 64), b64AlphabetChar (x / 4096 % 64), '=', '=']
  | [b1, b2] =>
      let x := (b1 % 256) * 65536 + (b2 % 256) * 256
      [b64AlphabetChar (x / 262144 % 64), b64AlphabetChar (x / 4096 % 64),
       b64AlphabetChar (x / 64 % 64), '=']
  | b1 :: b2 :: b3 :: rest =>
      let x := (b1 % 256) * 65536 + (b2 % 256) * 256 + (b3 % 256)
      b64AlphabetChar (x / 262144 % 64) :: b64AlphabetChar (x / 4096 % 64) ::
        b64AlphabetChar (x / 64 % 64) :: b64AlphabetChar (x % 64) :: base64EncodeList rest

/-- `fileToBase64`: the base64 payload of the data URL produced by
`FileReader.readAsDataURL`. -/
def fileToBase64 (f : JSFile) : String := String.mk (base64EncodeList f.content)

/-! ### Cache keys (src/lib/query-client.ts `ocrKeys`) -/

/-- A token of a TanStack query key: a string or a number. -/
inductive KeyTok
  | s (v : String)
  | n (v : Int)
  deriving DecidableEq

abbrev CacheKey := List KeyTok

def ocrKeysUrlDocument (url : String) : CacheKey :=
  [.s "ocr", .s "url-document", .s url]

def ocrKeysUrlImage (url : String) : CacheKey :=
  [.s "ocr", .s "url-image", .s url]

def ocrKeysBase64Document (hash : String) : CacheKey :=
  [.s "ocr", .s "base64-document", .s hash]

def ocrKeysBase64Image (hash : String) : CacheKey :=
  [.s "ocr", .s "base64-image", .s hash]

def ocrKeysFileDocument (name : String) (size : Nat) (lastModified : Int) : CacheKey :=
  [.s "ocr", .s "file-document", .s name, .n size, .n lastModified]

def ocrKeysFileImage (name : String) (size : Nat) (lastModified : Int) : CacheKey :=
  [.s "ocr", .s "file-image", .s name, .n size, .n lastModified]

/-! ### Orchestrator (src/hooks/use-ocr.ts) -/

/-- The tagged input union `OCRInputType`. -/
inductive OCRInputType
  | urlDocument (url : String)
  | urlImage (url : String)
  | base64Document (base64 mimeType : String)
  | base64Image (base64 mimeType : String)
  | file (f : JSFile)
  deriving DecidableEq

/-- `getCacheKey` from use-ocr.ts: content-addressed keys, with the literal
`0` in the timestamp slot of file keys. -/
def getCacheKey : OCRInputType → CacheKey
  | .urlDocument url => ocrKeysUrlDocument url
  | .urlImage url => ocrKeysUrlImage url
  | .base64Document base64 _ => ocrKeysBase64Document (generateBase64Hash base64)
  | .base64Image base64 _ => ocrKeysBase64Image (generateBase64Hash base64)
  | .file f =>
      if isValidPdfFile f then ocrKeysFileDocument (generateFileHash f) f.size 0
      else ocrKeysFileImage (generateFileHash f) f.size 0

/-- The OCR result record (`OCRResult`); images kept as opaque payloads. -/
structure OCRResult where
  text : String
  pages : Option Nat
  processingTime : Option Nat
  images : Option (List String)
  deriving DecidableEq

abbrev Cache := List (CacheKey × OCRResult)

/-- `queryClient.getQueryData`. -/
def cacheGet (cache : Cache) (key : CacheKey) : Option OCRResult :=
  (cache.find? (fun entry => decide (entry.1 = key))).map Prod.snd

/-- `queryClient.setQueryData` (the newest entry shadows older ones). -/
def cacheSet (cache : Cache) (key : CacheKey) (value : OCRResult) : Cache :=
  (key, value) :: cache

/-- One invocation of the OCR client adapter (`OCRService`), as selected by
the `switch` in the mutation: which method is called and with what payload. -/
inductive ExtCall
  | documentUrl (url : String)
  | imageUrl (url : String)
  | base64Doc (base64 mimeType : String)
  | base64Img (base64 mimeType : String)
  deriving DecidableEq

/-- The adapter call the mutation's `switch` performs for each input. -/
def externalCallFor : OCRInputType → ExtCall
  | .urlDocument url => .documentUrl url
  | .urlImage url => .imageUrl url
  | .base64Document base64 mimeType => .base64Doc base64 mimeType
  | .base64Image base64 mimeType => .base64Img base64 mimeType
  | .file f =>
      if isValidPdfFile f then .base64Doc (fileToBase64 f) (getMimeType f)
      else .base64Img (fileToBase64 f) (getMimeType f)

/-- `apiKeySchema.safeParse`: at least 10 characters, not all whitespace
(checked by the `OCRService` constructor before any adapter call). -/
def apiKeyValid (key : String) : Bool :=
  decide (10 ≤ key.length) && decide (0 < (jsTrim key).length)

/-- Outcome of one mutation: the surfaced result or error, the cache after
the call, and the log of adapter invocations made. -/
structure ProcResult where
  outcome : Except String OCRResult
  cache : Cache
  callLog : List ExtCall

/-- The cache-first mutation of `useOCRMutation`: compute the key, return a
cached result immediately, otherwise construct the service (validating the
API key) and make exactly one adapter call, storing a successful result
under the key before returning it.  `svc` is the external OCR client
adapter, supplied as an oracle. -/
def process (svc : ExtCall → Except String OCRResult) (apiKey : String)
    (cache : Cache) (input : OCRInputType) : ProcResult :=
  let key := getCacheKey input
  match cacheGet cache key with
  | some cached => ⟨.ok cached, cache, []⟩
  | none =>
      if apiKeyValid apiKey then
        let call := externalCallFor input
        match svc call with
        | .ok r => ⟨.ok r, cacheSet cache key r, [call]⟩
        | .error e => ⟨.error e, cache, [call]⟩
      else ⟨.error "ValidationError: invalid API key", cache, []⟩

/-! ### Input classifier (src/lib/file-utils.ts `detectInputType`) -/

inductive InputTy
  | url
  | base64
  | unknown
  deriving DecidableEq

inductive ContentTy
  | pdf
  | image
  | unknown
  deriving DecidableEq

/-- The classifier output `DetectedInput`. -/
structure DetectedInput where
  inputType : InputTy
  contentType : ContentTy
  value : String
  deriving DecidableEq

/-- Modelled from the spec: `urlSchema` delegates to the external zod
`.url()` validator and the host `URL` parser, which are third-party code
outside this repository.  Modelled as: the text parses as an absolute
HTTP/HTTPS URL, i.e. it begins (case-insensitively) with `http://` or
`https://` followed by a nonempty remainder containing no whitespace. -/
def validateUrl (s : String) : Bool :=
  let l := lowerStr s
  (strStartsWith l "http://" || strStartsWith l "https://") &&
    (let rest := if strStartsWith l "https://" then s.toList.drop 8 else s.toList.drop 7
     !rest.isEmpty && rest.all (fun c => !isJsSpace c))

/-- The data-URL pattern of `dataUrlSchema`,
`^data:([^;]+);base64,(.+)$`, returning the mime and payload groups. -/
def matchDataUrl (s : String) : Option (String × String) :=
  if strStartsWith s "data:" then
    let rest := s.toList.drop 5
    let mime := rest.takeWhile (fun c => c != ';')
    let after := rest.drop mime.length
    if !mime.isEmpty && charsLead [';', 'b', 'a', 's', 'e', '6', '4', ','] after then
      let payload := after.drop 8
      if !payload.isEmpty &&
          payload.all (fun c => c != '\n' && c != '\r' && c != '\u2028' && c != '\u2029') then
        some (String.mk mime, String.mk payload)
      else none
    else none
  else none

/-- `isDataUrl`: `dataUrlSchema.safeParse(url).success`. -/
def isDataUrl (s : String) : Bool := (matchDataUrl s).isSome

def isBase64Char (c : Char) : Bool :=
  (65 ≤ c.toNat && c.toNat ≤ 90) || (97 ≤ c.toNat && c.toNat ≤ 122) ||
    (48 ≤ c.toNat && c.toNat ≤ 57) || c == '+' || c == '/'

/-- The raw-base64 pattern `^[A-Za-z0-9+/]+=*$`. -/
def matchesBase64Shape (s : String) : Bool :=
  let cs := s.toList
  let core := cs.takeWhile isBase64Char
  !core.isEmpty && (cs.drop core.length).all (fun c => c == '=')

/-- The image-extension test
`/\.(png|jpe?g|avif|webp|gif)(\?|$)/i.test(urlLower)` on the already
lower-cased URL: some `.ext` occurrence followed by `?` or at the end. -/
def hasImageUrlExt (lower : String) : Bool :=
  ["png", "jpg", "jpeg", "avif", "webp", "gif"].any fun ext =>
    strEndsWith lower ("." ++ ext) || strContains lower ("." ++ ext ++ "?")

/-- The raw-base64 tail of `detectInputType` (length over 50, base64
alphabet, then signature sniffing), reached both when the data-URL test
fails and when its extraction yields nothing. -/
def rawBase64Branch (t : String) : DetectedInput :=
  if decide (t.length > 50) && matchesBase64Shape t then
    if strStartsWith t "JVBERi0" then ⟨.base64, .pdf, t⟩
    else if strStartsWith t "iVBORw0KGgo" || strStartsWith t "/9j/" ||
        strStartsWith t "R0lGOD" then ⟨.base64, .image, t⟩
    else ⟨.base64, .unknown, t⟩
  else ⟨.unknown, .unknown, t⟩

/-- `detectInputType`: trim, then URL, data-URL, raw-base64, unknown. -/
def detectInputType (input : String) : DetectedInput :=
  let t := jsTrim input
  if validateUrl t then
    let lower := lowerStr t
    if strEndsWith lower ".pdf" || strContains lower ".pdf?" then ⟨.url, .pdf, t⟩
    else if hasImageUrlExt lower then ⟨.url, .image, t⟩
    else ⟨.url, .unknown, t⟩
  else if isDataUrl t then
    match matchDataUrl t with
    | some (mimeType, base64) =>
        ⟨.base64,
          if strStartsWith mimeType "image/" then .image
          else if mimeType == "application/pdf" then .pdf
          else .unknown,
          base64⟩
    | none => rawBase64Branch t
  else rawBase64Branch t

/-! ### A small backtracking regular-expression engine

`hasMultipleUrls` is driven by three JavaScript regular expressions used
with `String.match(/…/g)` and `String.replace(/…/g, '')`.  The engine
below reproduces the relevant semantics: leftmost match, greedy
quantifiers with backtracking, word boundaries, and the global scan that
resumes after each (nonempty) match. -/

inductive RE
  | eps
  | cls (p : Char → Bool)
  | seq (a b : RE)
  | alt (a b : RE)
  | star (a : RE)
  | opt (a : RE)
  | wb

def RE.plus (a : RE) : RE := .seq a (.star a)

/-- JavaScript `\w` for `\b`: `[A-Za-z0-9_]`. -/
def wordChar (c : Char) : Bool :=
  (65 ≤ c.toNat && c.toNat ≤ 90) || (97 ≤ c.toNat && c.toNat ≤ 122) ||
    (48 ≤ c.toNat && c.toNat ≤ 57) || c == '_'

def wordBoundary (inp : Array Char) (i : Nat) : Bool :=
  let before := if i == 0 then false else wordChar (inp.getD (i - 1) ' ')
  let here := if decide (i < inp.size) then wordChar (inp.getD i ' ') else false
  before != here

/-- Backtracking matcher in continuation-passing style.  `runRE fuel re inp
i k` explores alternatives in the JavaScript order (greedy quantifiers
first, left alternative first) and returns the first success of the
continuation `k`. -/
def runRE : Nat → RE → Array Char → Nat → (Nat → Option Nat) → Option Nat
  | 0, _, _, _, _ => none
  | _ + 1, .eps, _, i, k => k i
  | _ + 1, .cls p, inp, i, k =>
      if decide (i < inp.size) && p (inp.getD i ' ') then k (i + 1) else none
  | fuel + 1, .seq a b, inp, i, k => runRE fuel a inp i (fun j => runRE fuel b inp j k)
  | fuel + 1, .alt a b, inp, i, k =>
      (runRE fuel a inp i k).orElse (fun _ => runRE fuel b inp i k)
  | fuel + 1, .star a, inp, i, k =>
      (runRE fuel a inp i
        (fun j => if decide (i < j) then runRE fuel (.star a) inp j k else none)).orElse
        (fun _ => k i)
  | fuel + 1, .opt a, inp, i, k => (runRE fuel a inp i k).orElse (fun _ => k i)
  | _ + 1, .wb, inp, i, k => if wordBoundary inp i then k i else none

def matchFuel (inp : Array Char) : Nat := (inp.size + 2) * 64 + 64

/-- Try to match `re` starting exactly at index `i`; on success return the
end index of the match the JavaScript engine would choose. -/
def matchAt (re : RE) (inp : Array Char) (i : Nat) : Option Nat :=
  runRE (matchFuel inp) re inp i some

/-- The global scan of `match`/`replace` with the `g` flag: find each
leftmost match at or after the current position, then resume after it
(advancing one position past an empty match). -/
def scanFrom (re : RE) (inp : Array Char) : Nat → Nat → List (Nat × Nat)
  | 0, _ => []
  | fuel + 1, i =>
      if decide (i > inp.size) then []
      else
        match matchAt re inp i with
        | some e => (i, e) :: scanFrom re inp fuel (if e == i then e + 1 else e)
        | none => scanFrom re inp fuel (i + 1)

/-- `input.match(re) || []` under the `g` flag, as (start, end) ranges. -/
def jsMatchAll (re : RE) (s : String) : List (Nat × Nat) :=
  let inp := s.toList.toArray
  scanFrom re inp (inp.size + 2) 0

/-- `input.replace(re, '')` under the `g` flag. -/
def jsRemoveAll (re : RE) (s : String) : String :=
  let inp := s.toList.toArray
  let ranges := scanFrom re inp (inp.size + 2) 0
  String.mk ((List.range inp.size).filterMap fun i =>
    if ranges.any (fun r => decide (r.1 ≤ i) && decide (i < r.2)) then none
    else some (inp.getD i ' '))

/-- A single character, case-insensitively (all three patterns carry the
`i` flag). -/
def litCI (c : Char) : RE := .cls (fun x => lowerChar x == c)

def strCI (s : String) : RE := s.toList.foldr (fun c r => RE.seq (litCI c) r) RE.eps

/-- `[^\s,;]`. -/
def clsNotSpaceCommaSemi : RE := .cls (fun c => !isJsSpace c && c != ',' && c != ';')

/-- `[a-z0-9]` with the `i` flag. -/
def clsAlnumCI : RE :=
  .cls (fun c =>
    (97 ≤ (lowerChar c).toNat && (lowerChar c).toNat ≤ 122) ||
      (48 ≤ c.toNat && c.toNat ≤ 57))

/-- `[a-z0-9-]` with the `i` flag. -/
def clsAlnumDashCI : RE :=
  .cls (fun c =>
    (97 ≤ (lowerChar c).toNat && (lowerChar c).toNat ≤ 122) ||
      (48 ≤ c.toNat && c.toNat ≤ 57) || c == '-')

/-- `[a-z]` with the `i` flag. -/
def clsAlphaCI : RE :=
  .cls (fun c => 97 ≤ (lowerChar c).toNat && (lowerChar c).toNat ≤ 122)

/-- `[a-z0-9]([a-z0-9-]*[a-z0-9])?`. -/
def reLabel : RE := .seq clsAlnumCI (.opt (.seq (.star clsAlnumDashCI) clsAlnumCI))

/-- `[a-z]{2,}`. -/
def reTld : RE := .seq clsAlphaCI (RE.plus clsAlphaCI)

/-- `(pdf|png|jpe?g|avif|webp|gif)`. -/
def reExt : RE :=
  .alt (strCI "pdf") (.alt (strCI "png")
    (.alt (.seq (litCI 'j') (.seq (litCI 'p') (.seq (.opt (litCI 'e')) (litCI 'g'))))
      (.alt (strCI "avif") (.alt (strCI "webp") (strCI "gif")))))

/-- `/https?:\/\/[^\s,;]+/gi`. -/
def fullUrlPattern : RE :=
  .seq (strCI "http") (.seq (.opt (litCI 's'))
    (.seq (strCI "://") (RE.plus clsNotSpaceCommaSemi)))

/-- `/\bwww\.[a-z0-9]([a-z0-9-]*[a-z0-9])?(\.[a-z0-9]([a-z0-9-]*[a-z0-9])?)*\.[a-z]{2,}[^\s,;]*/gi`. -/
def wwwPattern : RE :=
  .seq .wb (.seq (strCI "www.") (.seq reLabel
    (.seq (.star (.seq (litCI '.') reLabel))
      (.seq (litCI '.') (.seq reTld (.star clsNotSpaceCommaSemi))))))

/-- `/\b([a-z0-9]([a-z0-9-]*[a-z0-9])?\.)+[a-z]{2,}\/[^\s,;]+\.(pdf|png|jpe?g|avif|webp|gif)\b/gi`. -/
def domainPattern : RE :=
  .seq .wb (.seq (RE.plus (.seq reLabel (litCI '.')))
    (.seq reTld (.seq (litCI '/')
      (.seq (RE.plus clsNotSpaceCommaSemi) (.seq (litCI '.') (.seq reExt .wb))))))

/-- `hasMultipleUrls`: count full URLs, then `www.` domains on the text
with full URLs removed, then bare domains on the text with both removed;
true iff the total exceeds one. -/
def hasMultipleUrls (input : String) : Bool :=
  let fullUrlMatches := jsMatchAll fullUrlPattern input
  let remaining1 := jsRemoveAll fullUrlPattern input
  let wwwMatches := jsMatchAll wwwPattern remaining1
  let remaining2 := jsRemoveAll wwwPattern remaining1
  let domainMatches := jsMatchAll domainPattern remaining2
  decide (fullUrlMatches.length + wwwMatches.length + domainMatches.length > 1)

/-- The total match count described by the specification: non-overlapping
matches of the three patterns, each later pattern counted on the text with
the earlier patterns' matches removed. -/
def urlMatchTotal (input : String) : Nat :=
  (jsMatchAll fullUrlPattern input).length +
    (jsMatchAll wwwPattern (jsRemoveAll fullUrlPattern input)).length +
    (jsMatchAll domainPattern
      (jsRemoveAll wwwPattern (jsRemoveAll fullUrlPattern input))).length

/-! ### Helper lemmas -/

theorem toInt32_emod (x : Int) : toInt32 x % 4294967296 = x % 4294967296 := by
  unfold toInt32; omega

theorem toInt32_congr {a b : Int} (h : a % 4294967296 = b % 4294967296) :
    toInt32 a = toInt32 b := by
  unfold toInt32; omega

/-- The JavaScript shift-and-subtract step is the specification's
`hash*31 + byte` step, wrapped to 32 bits. -/
theorem jsHashStep_eq_spec (h : Int) (b : Nat) : jsHashStep h b = specHashStep h b := by
  unfold jsHashStep specHashStep
  apply toInt32_congr
  have h1 := toInt32_emod (h * 32)
  omega

theorem foldl_jsHashStep_eq (bs : List Nat) :
    ∀ h0 : Int, bs.foldl jsHashStep h0 = bs.foldl specHashStep h0 := by
  induction bs with
  | nil => intro h0; rfl
  | cons b tl ih =>
      intro h0
      simp only [List.foldl_cons, jsHashStep_eq_spec]
      exact ih _

theorem jsHash_eq_spec (bs : List Nat) : jsHash bs = bs.foldl specHashStep 0 :=
  foldl_jsHashStep_eq bs 0

/-- The sampled slice `file.slice(0, Math.min(8192, file.size))` is just
the first 8192 bytes. -/
theorem fileSample_eq_take (f : JSFile) : fileSample f = f.content.take 8192 := by
  unfold fileSample JSFile.size
  rcases Nat.le_total f.content.length 8192 with h | h
  · rw [Nat.min_eq_right h, List.take_length, List.take_of_length_le h]
  · rw [Nat.min_eq_left h]

theorem cacheGet_cacheSet_self (cache : Cache) (key : CacheKey) (r : OCRResult) :
    cacheGet (cacheSet cache key r) key = some r := by
  simp [cacheGet, cacheSet, List.find?]

/-! ### Claim C1 -/

/-- C1: when the computed cache key already has a stored result, the
mutation returns exactly that stored result, leaves the cache unchanged,
and performs zero calls to the external OCR client. -/
theorem claim_C1_cache_hit (svc : ExtCall → Except String OCRResult) (apiKey : String)
    (cache : Cache) (input : OCRInputType) (r : OCRResult)
    (h : cacheGet cache (getCacheKey input) = some r) :
    process svc apiKey cache input = ⟨.ok r, cache, []⟩ := by
  simp [process, h]

/-- C1 witness: a concrete pre-populated cache entry is returned verbatim
with an empty call log, even though the supplied client always fails. -/
theorem claim_C1_cache_hit_witness :
    process (fun _ => .error "down") "0123456789"
        [(ocrKeysUrlDocument "https://a.com/x.pdf", ⟨"cached", some 1, some 5, none⟩)]
        (.urlDocument "https://a.com/x.pdf") =
      ⟨.ok ⟨"cached", some 1, some 5, none⟩,
       [(ocrKeysUrlDocument "https://a.com/x.pdf", ⟨"cached", some 1, some 5, none⟩)],
       []⟩ :=
  claim_C1_cache_hit _ _ _ _ _ (by decide)

/-! ### Claim C2 -/

/-- C2: on a cache miss (with a valid API key) exactly one external call
is made, and a successful result is both returned and stored in the cache
under the computed key. -/
theorem claim_C2_cache_miss (svc : ExtCall → Except String OCRResult) (apiKey : String)
    (cache : Cache) (input : OCRInputType)
    (hmiss : cacheGet cache (getCacheKey input) = none)
    (hkey : apiKeyValid apiKey = true) :
    (process svc apiKey cache input).callLog = [externalCallFor input] ∧
    ∀ r : OCRResult, svc (externalCallFor input) = .ok r →
      (process svc apiKey cache input).outcome = .ok r ∧
      cacheGet (process svc apiKey cache input).cache (getCacheKey input) = some r := by
  constructor
  · simp only [process, hmiss, hkey, if_true]
    cases hsvc : svc (externalCallFor input) <;> simp [hsvc]
  · intro r hr
    refine ⟨?_, ?_⟩ <;> simp [process, hmiss, hkey, hr, cacheGet_cacheSet_self]

/-- C2 witness: concrete cache miss, one logged call, result returned and
readable back from the cache. -/
theorem claim_C2_cache_miss_witness :
    (process (fun _ => .ok ⟨"text", some 1, some 5, none⟩) "0123456789" []
        (.urlDocument "https://a.com/x.pdf")).callLog =
      [externalCallFor (.urlDocument "https://a.com/x.pdf")] ∧
    ∀ r : OCRResult,
      (fun _ : ExtCall => Except.ok (ε := String) (⟨"text", some 1, some 5, none⟩ : OCRResult))
          (externalCallFor (.urlDocument "https://a.com/x.pdf")) = .ok r →
      (process (fun _ => .ok ⟨"text", some 1, some 5, none⟩) "0123456789" []
          (.urlDocument "https://a.com/x.pdf")).outcome = .ok r ∧
      cacheGet (process (fun _ => .ok ⟨"text", some 1, some 5, none⟩) "0123456789" []
          (.urlDocument "https://a.com/x.pdf")).cache
        (getCacheKey (.urlDocument "https://a.com/x.pdf")) = some r :=
  claim_C2_cache_miss _ _ _ _ (by decide) (by decide)

/-! ### Claim C3 -/

/-- C3: when the external call fails on a cache miss, the failure is
surfaced unchanged and nothing is written to the cache - in particular the
computed key still has no entry. -/
theorem claim_C3_error_no_write (svc : ExtCall → Except String OCRResult) (apiKey : String)
    (cache : Cache) (input : OCRInputType) (e : String)
    (hmiss : cacheGet cache (getCacheKey input) = none)
    (hkey : apiKeyValid apiKey = true)
    (herr : svc (externalCallFor input) = .error e) :
    (process svc apiKey cache input).outcome = .error e ∧
    (process svc apiKey cache input).cache = cache ∧
    cacheGet (process svc apiKey cache input).cache (getCacheKey input) = none := by
  refine ⟨?_, ?_, ?_⟩ <;> simp [process, hmiss, hkey, herr]

/-- C3 witness: a failing client leaves a concrete empty cache empty and
surfaces the error. -/
theorem claim_C3_error_no_write_witness :
    (process (fun _ => .error "network down") "0123456789" []
        (.urlDocument "https://a.com/x.pdf")).outcome = .error "network down" ∧
    (process (fun _ => .error "network down") "0123456789" []
        (.urlDocument "https://a.com/x.pdf")).cache = [] ∧
    cacheGet (process (fun _ => .error "network down") "0123456789" []
        (.urlDocument "https://a.com/x.pdf")).cache
      (getCacheKey (.urlDocument "https://a.com/x.pdf")) = none :=
  claim_C3_error_no_write _ _ _ _ _ (by decide) (by decide) rfl

/-! ### Claim C4 -/

/-- C4 counterexample: the claim says `digest(s) = s` for all strings of
length at most 40, but the code's guard is `length < 40`: a 40-character
string is expanded into the 44-character first-20/length/last-20 form. -/
theorem claim_C4_counterexample :
    (String.mk (List.replicate 40 'a')).length ≤ 40 ∧
    generateBase64Hash (String.mk (List.replicate 40 'a')) ≠
      String.mk (List.replicate 40 'a') := by
  decide

/-- C4 (amended): for every string of length strictly below 40 the digest
returns the string verbatim. -/
theorem claim_C4_digest_short (s : String) (h : s.length < 40) :
    generateBase64Hash s = s := by
  simp [generateBase64Hash, h]

/-- C4 witness: a concrete short string is its own digest. -/
theorem claim_C4_digest_short_witness :
    ("abc" : String).length < 40 ∧ generateBase64Hash "abc" = "abc" :=
  ⟨by decide, claim_C4_digest_short "abc" (by decide)⟩

/-! ### Claim C5 -/

/-- C5 counterexample: two files with the same name, the same size and
byte-identical content nevertheless get different cache keys when their
declared MIME types differ, because `isValidPdfFile` consults `file.type`:
the claim's hypothesis list (name, size, first-8192 bytes) is not enough. -/
theorem claim_C5_counterexample :
    (JSFile.mk "doc" [37] "application/pdf" 5).name = (JSFile.mk "doc" [37] "" 9).name ∧
    (JSFile.mk "doc" [37] "application/pdf" 5).size = (JSFile.mk "doc" [37] "" 9).size ∧
    (JSFile.mk "doc" [37] "application/pdf" 5).content.take 8192 =
      (JSFile.mk "doc" [37] "" 9).content.take 8192 ∧
    getCacheKey (.file (JSFile.mk "doc" [37] "application/pdf" 5)) ≠
      getCacheKey (.file (JSFile.mk "doc" [37] "" 9)) := by
  decide

/-- C5 (amended): for files agreeing on name, size, first 8192 content
bytes and declared MIME type, the cache key is identical regardless of the
modification timestamps; the key carries the literal 0 in the timestamp
slot, and the content hash is `name-size-abs(h) base 36` with `h` the
32-bit wrap of `h*31 + byte` folded over the first 8192 bytes. -/
theorem claim_C5_file_key_stable (f g : JSFile)
    (hname : f.name = g.name) (hsize : f.size = g.size)
    (hbytes : f.content.take 8192 = g.content.take 8192)
    (htype : f.type = g.type) :
    getCacheKey (.file f) = getCacheKey (.file g) ∧
    getCacheKey (.file f) =
      [KeyTok.s "ocr",
       KeyTok.s (if isValidPdfFile f then "file-document" else "file-image"),
       KeyTok.s (generateFileHash f), KeyTok.n (f.size : Int), KeyTok.n 0] ∧
    generateFileHash f =
      f.name ++ "-" ++ toString f.size ++ "-" ++
        toBase36 ((f.content.take 8192).foldl specHashStep 0).natAbs := by
  have hhash : generateFileHash f = generateFileHash g := by
    simp only [generateFileHash, fileSample_eq_take, hname, hsize, hbytes]
  have hpdf : isValidPdfFile f = isValidPdfFile g := by
    simp only [isValidPdfFile, hname, hsize, htype]
  refine ⟨?_, ?_, ?_⟩
  · simp only [getCacheKey, hpdf, hhash, hsize]
  · cases hv : isValidPdfFile f <;>
      simp [getCacheKey, ocrKeysFileDocument, ocrKeysFileImage, hv]
  · simp only [generateFileHash, fileSample_eq_take, jsHash_eq_spec]

/-- C5 witness: the same file content uploaded with two different
modification timestamps yields the same key. -/
theorem claim_C5_file_key_stable_witness :
    getCacheKey (.file (JSFile.mk "a.pdf" [1, 2, 3] "application/pdf" 10)) =
      getCacheKey (.file (JSFile.mk "a.pdf" [1, 2, 3] "application/pdf" 99)) :=
  (claim_C5_file_key_stable _ _ rfl rfl rfl rfl).1

/-! ### Claim C6 -/

/-- C6: every trimmed input accepted by the URL validator classifies as a
URL, with content type pdf when the lower-cased text ends in `.pdf` or
contains `.pdf?`, image when one of the six image extensions occurs
followed by `?` or at the end, and unknown otherwise; the three
specification examples hold. -/
theorem claim_C6_url_classify :
    (∀ s : String, validateUrl (jsTrim s) = true →
      detectInputType s =
        ⟨.url,
         if strEndsWith (lowerStr (jsTrim s)) ".pdf" ||
             strContains (lowerStr (jsTrim s)) ".pdf?" then .pdf
         else if hasImageUrlExt (lowerStr (jsTrim s)) then .image
         else .unknown,
         jsTrim s⟩) ∧
    detectInputType "https://a.com/x.pdf" = ⟨.url, .pdf, "https://a.com/x.pdf"⟩ ∧
    detectInputType "https://a.com/x.png?q=1" = ⟨.url, .image, "https://a.com/x.png?q=1"⟩ ∧
    detectInputType "https://a.com/x" = ⟨.url, .unknown, "https://a.com/x"⟩ := by
  refine ⟨fun s h => ?_, by decide, by decide, by decide⟩
  simp only [detectInputType, h, if_true]
  split
  next h1 => simp [h1]
  next h1 =>
    split
    next h2 => simp [h1, h2]
    next h2 => simp [h1, h2]

/-- C6 witness: a mixed-case, padded URL instance of the general branch
theorem. -/
theorem claim_C6_url_classify_witness :
    validateUrl (jsTrim " https://e.com/a.PDF ") = true ∧
    detectInputType " https://e.com/a.PDF " = ⟨.url, .pdf, "https://e.com/a.PDF"⟩ :=
  ⟨by decide,
   (claim_C6_url_classify.1 " https://e.com/a.PDF " (by decide)).trans (by decide)⟩

/-! ### Claim C7 -/

/-- C7: every trimmed input that is neither a URL nor a data URL, has
length over 50, and matches the base64 alphabet with optional `=` padding
classifies as base64, with content type chosen by signature prefix:
`JVBERi0` gives pdf; `iVBORw0KGgo`, `/9j/` or `R0lGOD` give image;
anything else gives unknown. -/
theorem claim_C7_base64_classify (s : String)
    (h1 : validateUrl (jsTrim s) = false) (h2 : isDataUrl (jsTrim s) = false)
    (h3 : 50 < (jsTrim s).length) (h4 : matchesBase64Shape (jsTrim s) = true) :
    detectInputType s =
      ⟨.base64,
       if strStartsWith (jsTrim s) "JVBERi0" then .pdf
       else if strStartsWith (jsTrim s) "iVBORw0KGgo" || strStartsWith (jsTrim s) "/9j/" ||
           strStartsWith (jsTrim s) "R0lGOD" then .image
       else .unknown,
       jsTrim s⟩ := by
  have hc : (decide ((jsTrim s).length > 50) && matchesBase64Shape (jsTrim s)) = true := by
    rw [h4, Bool.and_true]
    exact decide_eq_true h3
  simp only [detectInputType, h1, h2, Bool.false_eq_true, if_false,
    rawBase64Branch, hc, if_true]
  split
  next hp => simp [hp]
  next hp =>
    split
    next hi => simp [hp, hi]
    next hi => simp [hp, hi]

/-- C7 witness: a concrete 51-character PDF-signature base64 string. -/
theorem claim_C7_base64_classify_witness :
    50 < ("JVBERi0AAAAAAAAAAAAAAAAAAAAAAAAAAAAAAAAAAAAAAAAAAAA" : String).length ∧
    detectInputType "JVBERi0AAAAAAAAAAAAAAAAAAAAAAAAAAAAAAAAAAAAAAAAAAAA" =
      ⟨.base64, .pdf, "JVBERi0AAAAAAAAAAAAAAAAAAAAAAAAAAAAAAAAAAAAAAAAAAAA"⟩ :=
  ⟨by decide,
   (claim_C7_base64_classify "JVBERi0AAAAAAAAAAAAAAAAAAAAAAAAAAAAAAAAAAAAAAAAAAAA"
       (by decide) (by decide) (by decide) (by decide)).trans (by decide)⟩

/-! ### Claim C8 -/

/-- C8: an input consisting only of whitespace (including the empty
string) trims to the empty string and classifies as unknown/unknown; the
classifier is total by construction. -/
theorem claim_C8_whitespace_unknown (s : String)
    (h : ∀ c ∈ s.toList, isJsSpace c = true) :
    jsTrim s = "" ∧ detectInputType s = ⟨.unknown, .unknown, ""⟩ := by
  have h1 : s.toList.dropWhile isJsSpace = [] := by
    rw [List.dropWhile_eq_nil_iff]
    exact h
  have ht : jsTrim s = "" := by
    unfold jsTrim
    rw [h1]
    rfl
  refine ⟨ht, ?_⟩
  simp only [detectInputType, ht]
  decide

/-- C8 witness: two spaces classify as unknown/unknown. -/
theorem claim_C8_whitespace_unknown_witness :
    jsTrim "  " = "" ∧ detectInputType "  " = ⟨.unknown, .unknown, ""⟩ :=
  claim_C8_whitespace_unknown "  " (by decide)

/-! ### Claim C9 -/

/-- C9: `hasMultipleUrls` is true exactly when the total number of
non-overlapping matches - full URLs, then `www.` domains on the text with
full URLs removed, then bare extension-bearing domains on the text with
both removed - exceeds one; the two specification examples hold. -/
theorem claim_C9_multi_url :
    (∀ s : String, hasMultipleUrls s = true ↔ 1 < urlMatchTotal s) ∧
    hasMultipleUrls "see http://a.com/x.pdf and http://b.com/y.png" = true ∧
    hasMultipleUrls "http://a.com/x.pdf" = false := by
  refine ⟨fun s => ?_, by decide, by decide⟩
  simp [hasMultipleUrls, urlMatchTotal]

/-- C9 witness: the equivalence instantiated at a concrete string. -/
theorem claim_C9_multi_url_witness :
    hasMultipleUrls "www.a.com/x.pdf and b.com/y.png" = true ↔
      1 < urlMatchTotal "www.a.com/x.pdf and b.com/y.png" :=
  claim_C9_multi_url.1 "www.a.com/x.pdf and b.com/y.png"

/-! ### Claim C10 -/

/-- C10: the PDF and image validators reject every file whose size is zero
or exceeds 10485760 bytes, regardless of MIME type or extension. -/
theorem claim_C10_size_limits (f : JSFile)
    (h : f.size = 0 ∨ 10485760 < f.size) :
    isValidPdfFile f = false ∧ isValidImageFile f = false := by
  rcases h with h | h
  · have h2 : decide (0 < f.size) = false := by simp [h]
    simp [isValidPdfFile, isValidImageFile, h2]
  · have h2 : decide (f.size ≤ MAX_FILE_SIZE) = false := by
      simp only [MAX_FILE_SIZE]
      simp only [decide_eq_false_iff_not]
      omega
    simp [isValidPdfFile, isValidImageFile, h2]

/-- C10 witness: an empty file named `a.pdf` with a PDF MIME type is
rejected by both validators. -/
theorem claim_C10_size_limits_witness :
    isValidPdfFile (JSFile.mk "a.pdf" [] "application/pdf" 0) = false ∧
    isValidImageFile (JSFile.mk "a.pdf" [] "application/pdf" 0) = false :=
  claim_C10_size_limits _ (Or.inl rfl)

end DocOCR
